import Mathlib

/-!
Verification of the `django-xently` plugin layer.

We give a shallow embedding of the three source modules the claims are about:

* `xently/core/loading.py`  — dynamic class resolution (override-before-library),
* `xently/decorators.py`    — permission evaluation and the access decorator,
* `xently/config.py`        — app-config mixins: URL auto-loading, post-processing,
  permission lookup, and the constructor kwarg handling.

Python strings are modelled as `List Char` (named `Str` below) so that the
splitting functions used by the source (`str.split`, containment, prefixes)
are ordinary computable recursive functions amenable to induction.
Python exceptions are modelled with `Except` over explicit error inductives;
distinct exception classes become distinct constructors.
-/

/-- Python `str`, modelled as a list of characters. -/
abbrev Str := List Char

/-- Python `c in s` for a single character `c` (substring test of length 1). -/
def strContainsChar (s : Str) (c : Char) : Bool :=
  s.any fun x => x == c

/-- Python `s.split(sep)` for a single-character separator.
Mirrors CPython semantics: the empty string splits to `[""]`, and a
trailing separator yields a trailing empty field. -/
def splitOnChar (c : Char) : Str → List Str
  | [] => [[]]
  | x :: xs =>
    let r := splitOnChar c xs
    if x == c then
      [] :: r
    else
      match r with
      | [] => [[x]]
      | h :: t => (x :: h) :: t

/-- Python `sep.join(parts)`. -/
def strJoin (sep : Str) : List Str → Str
  | [] => []
  | [x] => x
  | x :: xs => x ++ sep ++ strJoin sep xs

/-- Python `s.startswith(p)`. -/
def strStartsWith (s p : Str) : Bool :=
  p.isPrefixOf s

/-! ## Model of `xently/core/loading.py` -/

/-- A Python runtime object that can be stored as a module attribute (for the
claims at hand: a class).  `oid` is the object identity, `truthy` its Python
truth value (an actual class object is always truthy; the flag keeps
`_pluck_classes`'s `if not klass` test faithful to the source). -/
structure PyObj where
  oid : Nat
  truthy : Bool
deriving DecidableEq, Repr

/-- A Python module: its `__name__` and its attribute dictionary. -/
structure PyModule where
  name : Str
  attrs : List (Str × PyObj)
deriving DecidableEq, Repr

/-- Python `getattr(module, classname, None)` on a module object. -/
def PyModule.getAttr (m : PyModule) (c : Str) : Option PyObj :=
  m.attrs.lookup c

/-- Python `hasattr(module, classname)`; `none` stands for Python `None`
(the placeholder `default_class_loader` uses for a missing module), on which
`hasattr` is false for any ordinary class name. -/
def hasattrOpt (m : Option PyModule) (c : Str) : Bool :=
  match m with
  | none => false
  | some m => (m.getAttr c).isSome

/-- Python `getattr(module, classname)` lifted to the optional modules used by
`_pluck_classes` (only consulted under a successful `hasattr`). -/
def getattrOpt (m : Option PyModule) (c : Str) : Option PyObj :=
  match m with
  | none => none
  | some m => m.getAttr c

/-- Outcome of `__import__(label, ...)` for one module label:
the module exists, it truly does not exist, or importing it raises an
`ImportError` from a frame deeper than the `__import__` statement itself
(the traceback-depth case `_import_module` re-raises). -/
inductive ImportResult where
  | found (m : PyModule)
  | absent
  | brokenImport
deriving DecidableEq, Repr

/-- The process environment visible to `loading.py`: the import system and the
Django app registry.  `resolveImport` is the (pure, process-wide) behaviour of
`__import__` for each dotted label; `app_configs` maps an installed app label
to the app config's dotted `name` (`None` for `LookupError`); `loaderPfx` is
the resolved value of `settings.XENTLY_DYNAMIC_CLASS_LOADER_MODULE_PREFIX`
(default `"xently.apps"`). -/
structure PyEnv where
  resolveImport : Str → ImportResult
  app_configs : Str → Option Str
  loaderPfx : Str

/-- The distinct exception classes raised by `loading.py`.  Each Python
exception class is one constructor, carrying its message. -/
inductive LoadError where
  | valueError (msg : Str)
  | appNotFound (msg : Str)
  | classNotFound (msg : Str)
  | moduleNotFound (msg : Str)
  | importError
deriving DecidableEq, Repr

/-- Model of `_import_module`: returns `none` if the module does not exist,
propagates an `ImportError` whose traceback shows more than one frame. -/
def tryImport (env : PyEnv) (module_label : Str) : Except LoadError (Option PyModule) :=
  match env.resolveImport module_label with
  | .found m => .ok (some m)
  | .absent => .ok none
  | .brokenImport => .error .importError

/-- Message of the `ClassNotFoundError` raised by `_pluck_classes`:
`No class '<classname>' found in <m1>, <m2>` over the non-`None` modules. -/
def classNotFoundMsg (classname : Str) (modules : List (Option PyModule)) : Str :=
  let packages := modules.filterMap fun m => m.map PyModule.name
  ("No class \x27".toList) ++ classname ++ ("\x27 found in ".toList) ++
    strJoin (", ".toList) packages

/-- The first module in scan order that `hasattr`s the class name; its
attribute value is the candidate class (`_pluck_classes`'s inner loop). -/
def firstModuleAttr (modules : List (Option PyModule)) (c : Str) : Option PyObj :=
  match modules with
  | [] => none
  | m :: rest => if hasattrOpt m c then getattrOpt m c else firstModuleAttr rest c

/-- Model of `_pluck_classes`: for each class name take the class from the
first module that has a matching attribute; if the candidate is missing or
falsy, raise `ClassNotFoundError` naming every non-`None` module searched. -/
def pluck_classes (modules : List (Option PyModule)) : List Str → Except LoadError (List PyObj)
  | [] => .ok []
  | c :: cs =>
    match firstModuleAttr modules c with
    | some k =>
      if k.truthy then do
        let rest ← pluck_classes modules cs
        .ok (k :: rest)
      else
        .error (.classNotFound (classNotFoundMsg c modules))
    | none => .error (.classNotFound (classNotFoundMsg c modules))

/-- Model of `_find_registered_app_name`: look the first label segment up in
the Django app registry; `LookupError` becomes `AppNotFoundError`. -/
def find_registered_app_name (env : PyEnv) (module_label : Str) : Except LoadError Str :=
  let app_label := (splitOnChar '.' module_label).headD []
  match env.app_configs app_label with
  | none =>
      .error (.appNotFound (("Couldn\x27t find an app to import ".toList) ++
        module_label ++ (" from".toList)))
  | some name => .ok name

/-- The label of the host-project override module:
`".".join(app_name.split(".") + module_label.split(".")[1:])`. -/
def local_module_label (app_name module_label : Str) : Str :=
  strJoin (".".toList)
    (splitOnChar '.' app_name ++ (splitOnChar '.' module_label).tail)

/-- Message of the `ModuleNotFoundError` raised when neither module imported.
The adjacent string literals of the source concatenate without a space
("eithermeans"), reproduced faithfully. -/
def moduleNotFoundMsg (module_label : Str) : Str :=
  ("The module with label \x27".toList) ++ module_label ++
    ("\x27 could not be imported. This either".toList) ++
    ("means that it indeed does not exist, or you might have a problem".toList) ++
    (" with a circular import.".toList)

/-- Model of `default_class_loader`. -/
def default_class_loader (env : PyEnv) (module_label : Str) (classnames : List Str)
    ( modulePfx : Str) : Except LoadError (List PyObj) := do
  if !strContainsChar module_label '.' then
    throw (.valueError ("Importing from top-level modules is not supported".toList))
  else
    let xently_module_label := modulePfx ++ (".".toList) ++ module_label
    let xently_module ← tryImport env xently_module_label
    let app_name ← find_registered_app_name env module_label
    let local_module ← (
      if strStartsWith app_name ( modulePfx ++ (".".toList)) then
        pure (none : Option PyModule)
      else
        tryImport env (local_module_label app_name module_label))
    if xently_module.isNone && local_module.isNone then
      throw (.moduleNotFound (moduleNotFoundMsg module_label))
    else
      pluck_classes [local_module, xently_module] classnames

/-- Model of `get_classes` with the class-loader setting at its default
(`get_class_loader()` resolves to `default_class_loader`; the `lru_cache`
around that resolution does not change its value).  A falsy
`module_prefix` argument falls back to the settings value. -/
def get_classes (env : PyEnv) (module_label : Str) (classnames : List Str)
    ( modulePfx : Option Str) : Except LoadError (List PyObj) :=
  let pfx := match modulePfx with
    | some p => if p.isEmpty then env.loaderPfx else p
    | none => env.loaderPfx
  default_class_loader env module_label classnames pfx

/-- Specification-side resolution order for one class name: the local
(host-project override) module is consulted first, the library module
second.  Used to state the claims about preference order. -/
def localFirst (local_module xently_module : PyModule) (c : Str) : Option PyObj :=
  match local_module.getAttr c with
  | some v => some v
  | none => xently_module.getAttr c

/-! ## Model of `xently/decorators.py` -/

/-- A Django user object as seen by `check_permissions`:
`attrs name` is the boolean outcome of `getattr(user, name)` after the
source's evaluation step (`attr() if isinstance(attr, Callable) else
bool(attr)`), and `has_perm` is `user.has_perm` for one dotted permission
(`user.has_perms(ps)` is `all(user.has_perm(p) for p in ps)` for Django's
permission mixins). -/
structure User where
  attrs : Str → Bool
  has_perm : Str → Bool

/-- Python `user.is_authenticated` (the same attribute surface that
`getattr(user, perm)` consults). -/
def User.is_authenticated (u : User) : Bool :=
  u.attrs ("is_authenticated".toList)

/-- Django `user.has_perms(perm_list)`. -/
def User.has_perms (u : User) (perms : List Str) : Bool :=
  perms.all u.has_perm

/-- A permission specification as accepted by `check_permissions`:
`None`, a flat list (AND), or a tuple of flat lists (OR). -/
inductive PermSpec where
  | nospec
  | flat (perms : List Str)
  | alt (alternatives : List (List Str))
deriving DecidableEq, Repr

/-- Python truthiness of the specification (`if not permissions`). -/
def PermSpec.falsy : PermSpec → Bool
  | .nospec => true
  | .flat l => l.isEmpty
  | .alt ls => ls.isEmpty

/-- Model of the inner `_check_one_permission_list` of `check_permissions`:
dotted entries go to `user.has_perms`, bare entries are attribute checks,
and `is_active` is implicitly appended to a non-empty bare list that
mentions neither `is_anonymous` nor `is_active`. -/
def check_one_permission_list (user : User) (perms : List Str) : Bool :=
  let regular_permissions := perms.filter fun p => strContainsChar p '.'
  let conditions := perms.filter fun p => !strContainsChar p '.'
  let conditions :=
    if !conditions.isEmpty && !conditions.contains ("is_anonymous".toList)
        && !conditions.contains ("is_active".toList) then
      conditions ++ [("is_active".toList)]
    else
      conditions
  (conditions.all user.attrs) && user.has_perms regular_permissions

/-- Model of `check_permissions`. -/
def check_permissions (user : User) (permissions : PermSpec) : Bool :=
  if permissions.falsy then
    true
  else
    match permissions with
    | .nospec => true
    | .flat l => check_one_permission_list user l
    | .alt ls => ls.any (check_one_permission_list user)

/-- The two permission-denied exception classes the decorator can raise:
`rest_framework.exceptions.PermissionDenied` and
`django.core.exceptions.PermissionDenied`. -/
inductive PermError where
  | apiPermissionDenied
  | permissionDenied
deriving DecidableEq, Repr

/-- Outcome of invoking a view wrapped by `user_passes_test`: either the
view's response or a redirect to the login page with the configured URL. -/
inductive ViewResult (α : Type) where
  | response (a : α)
  | redirectToLogin (login_url : Option Str)
deriving DecidableEq, Repr

/-- Model of Django's `user_passes_test(test_func, login_url=...)` applied to
a view: run the test on the requesting user (exceptions propagate), call the
view on success, redirect to login on failure. -/
def user_passes_test {α : Type} (test : User → Except PermError Bool)
    (login_url : Option Str) (view : User → α) (u : User) :
    Except PermError (ViewResult α) :=
  match test u with
  | .error e => .error e
  | .ok true => .ok (.response (view u))
  | .ok false => .ok (.redirectToLogin login_url)

/-- Model of the inner `_check_permissions` test of `permissions_required`.
`rest_available` says whether `from rest_framework import exceptions`
succeeds in this process. -/
def check_permissions_test (rest_available : Bool) (permissions : PermSpec)
    (api_exception : Bool) (u : User) : Except PermError Bool :=
  let outcome := check_permissions u permissions
  if !outcome && u.is_authenticated then
    if api_exception && rest_available then
      .error .apiPermissionDenied
    else
      .error .permissionDenied
  else
    .ok outcome

/-- Model of `permissions_required(permissions, login_url, api_exception)`
applied to a view. -/
def permissions_required {α : Type} (rest_available : Bool) (permissions : PermSpec)
    (login_url : Option Str) (api_exception : Bool) (view : User → α) (u : User) :
    Except PermError (ViewResult α) :=
  user_passes_test (check_permissions_test rest_available permissions api_exception)
    login_url view u

/-! ## Model of `xently/config.py`

The readied state of an application configuration is modelled as its
attribute record (`CfgAttrs`) together with the child apps wired by
`ready()` (`AppForest`): for every label declared in
`get_app_label_url_endpoint_mapping` the `<label>_app` attribute holds the
installed child app config or `None` (`get_installed_app_config` swallows
the `LookupError`).  The route objects built by `path`, `re_path` and
`include` are created afresh inside each call of the `urls` property, so the
in-place rewrite `pattern.callback = decorator(pattern.callback)` performed
by `_post_processed_urls` only ever touches objects constructed during the
same call; it is embedded as the pure rewrite `post_processed_urls`.  The
configuration state an invocation could read or write is threaded
explicitly through `urlsProp` / `auto_loaded_urls_call`, which return the
configuration forest after the call next to their result.

`get_urls` is the designed override point of `AppConfigMixin` ("Return the
URL patterns for this app"): the mixin's own body returns only
`self.get_auto_loaded_urls()`, and a concrete application overrides it to
contribute the app's own route entries (the spec's per-app URL list, which
auto-loading then merges child route trees into).  Each installed
configuration therefore carries its own route entries (`own` below, empty
for a configuration that does not override `get_urls`), and the dispatched
`get_urls()` returns them followed by the auto-loaded child mounts. -/

/-- Parameters of one `permissions_required(permissions, login_url,
api_exception)` decorator attached to a view callback. -/
structure DecTag where
  permissions : PermSpec
  login_url : Option Str
  api_exception : Bool
deriving DecidableEq, Repr

/-- A view callback: the underlying view function (by identity) and the
stack of decorators wrapped around it, outermost first. -/
structure Callback where
  view : Nat
  wrappers : List DecTag
deriving DecidableEq, Repr

/-- A Django route entry: a `URLPattern` leaf (name and callback) or a
`URLResolver` (built by `path`/`re_path` over an `include(...)` or over an
`(urls, app_label, namespace)` triple) holding nested `url_patterns`. -/
inductive URLEntry where
  | pattern (name : Option Str) (callback : Callback)
  | resolver (endpoint : Str) (regex : Bool) (url_patterns : List URLEntry)
      (app_namespace instance_namespace : Option Str)

/-- The attributes of an `AppConfigMixin` configuration that URL composition
and permission resolution read.  The source's `namespace` attribute is
called `ns` (`namespace` is a Lean keyword); `include_urls_in_parent` is the
attribute consulted by `getattr(app_config, "include_urls_in_parent",
self.include_urls_in_parent)` — every Xently config defines it (class
default `False`), so the parent-side fallback never fires for the configs
modelled here. -/
structure CfgAttrs where
  label : Str
  ns : Str
  login_url : Option Str
  auto_process_urls : Bool
  include_urls_in_parent : Bool
  permissions_map : List (Str × PermSpec)
  default_permissions : Option PermSpec
deriving DecidableEq, Repr

/-- Model of `AppConfigMixin.get_permissions(url)`: if the URL name contains
a colon, the source looks up `url.split(":")[1]`; a missing key (and the
`None` name) falls back to `default_permissions`. -/
def get_permissions (cfg : CfgAttrs) (url : Option Str) : Option PermSpec :=
  let view_name : Option Str :=
    match url with
    | some u =>
        if strContainsChar u ':' then some ((splitOnChar ':' u).getD 1 []) else some u
    | none => none
  match view_name with
  | none => cfg.default_permissions
  | some v =>
      match cfg.permissions_map.lookup v with
      | some p => some p
      | none => cfg.default_permissions

/-- Model of `AppConfigMixin.get_url_decorator(pattern)`: a truthy
permission specification yields `permissions_required(permissions,
self.login_url, self.label.startswith("api_"))`, anything falsy yields
`None`. -/
def get_url_decorator (cfg : CfgAttrs) (pattern_name : Option Str) : Option DecTag :=
  match get_permissions cfg pattern_name with
  | some p =>
      if !p.falsy then
        some { permissions := p, login_url := cfg.login_url,
               api_exception := strStartsWith cfg.label ("api_".toList) }
      else
        none
  | none => none

/-- Model of `AppConfigMixin._post_processed_urls(urlpatterns)`: descend into
every nested `url_patterns` collection, and wrap the callback of every
`URLPattern` whose name resolves to a decorator. -/
def post_processed_urls (cfg : CfgAttrs) : List URLEntry → List URLEntry
  | [] => []
  | .resolver e r inner a i :: rest =>
      .resolver e r (post_processed_urls cfg inner) a i :: post_processed_urls cfg rest
  | .pattern name cb :: rest =>
      (match get_url_decorator cfg name with
       | some d => .pattern name { view := cb.view, wrappers := d :: cb.wrappers }
       | none => .pattern name cb) :: post_processed_urls cfg rest

/-- A value of the `get_app_label_url_endpoint_mapping` dictionary: either a
plain endpoint string, or a dict carrying `endpoint` (possibly absent or
`None`) and `regex` keys. -/
inductive EndpointVal where
  | str (endpoint : Str)
  | dict (endpoint : Option Str) (regex : Bool)
deriving DecidableEq, Repr

/-- The `endpoint, regex` extraction at the top of the auto-load loop:
`endpoint = value.get("endpoint") or ""` and `regex = value.get("regex",
False)` for a dict value, `value, False` otherwise. -/
def EndpointVal.parse : EndpointVal → Str × Bool
  | .str e => (e, false)
  | .dict e r => ((match e with | some v => v | none => []), r)

/-- The readied children of a configuration, in declaration order of
`get_app_label_url_endpoint_mapping`: each child is its label and endpoint
value plus, for an installed app, the child's attributes, the route
entries returned by the child's (possibly overridden) `get_urls` beyond
the auto-loaded ones (`own`, empty when `get_urls` is not overridden), and
the child's own declared children. -/
inductive AppForest where
  | nil : AppForest
  | notInstalled (label : Str) (value : EndpointVal) (rest : AppForest) : AppForest
  | installed (label : Str) (value : EndpointVal) (attrs : CfgAttrs)
      (own : List URLEntry) (sub : AppForest) (rest : AppForest) : AppForest

/-- The Django settings `config.py` reads during URL composition. -/
structure GSettings where
  NAMESPACE_AUTO_INCLUDED_URLS : Bool
deriving DecidableEq, Repr

mutual
/-- Model of the `urls` property: compute `get_urls()` — the app's own
route entries (from the `get_urls` override point; the mixin default
contributes none) followed by `get_auto_loaded_urls()` — post-process when
`auto_process_urls` is set, and return the `(urls, label, namespace)`
triple.  The second component is the configuration state after the call. -/
def urlsProp (s : GSettings) (attrs : CfgAttrs) (own : List URLEntry)
    (children : AppForest) : (List URLEntry × Str × Str) × AppForest :=
  let r := auto_loaded_urls_call s children
  let got := own ++ r.1
  let pats := if attrs.auto_process_urls then post_processed_urls attrs got else got
  ((pats, attrs.label, attrs.ns), r.2)

/-- Model of `AutoLoadURLsConfigMixin.get_auto_loaded_urls`, threading the
configuration state of the visited children: skip labels whose app was not
installed, query each installed child's `urls`, skip children whose route
list is empty, and mount the rest — inlined through `include(...)` (with a
namespace when `NAMESPACE_AUTO_INCLUDED_URLS` is set) when the child has
`include_urls_in_parent`, and as the full `(urls, label, namespace)` triple
otherwise. -/
def auto_loaded_urls_call (s : GSettings) : AppForest → List URLEntry × AppForest
  | .nil => ([], .nil)
  | .notInstalled label value rest =>
      let r := auto_loaded_urls_call s rest
      (r.1, .notInstalled label value r.2)
  | .installed label value attrs own sub rest =>
      let er := value.parse
      let child := urlsProp s attrs own sub
      let r := auto_loaded_urls_call s rest
      let entry : List URLEntry :=
        if attrs.include_urls_in_parent then
          let child_app_urls := child.1.1
          if child_app_urls.isEmpty then
            []
          else if s.NAMESPACE_AUTO_INCLUDED_URLS then
            [.resolver er.1 er.2 child_app_urls (some attrs.ns) (some attrs.ns)]
          else
            [.resolver er.1 er.2 child_app_urls none none]
        else
          if child.1.1.isEmpty then
            []
          else
            [.resolver er.1 er.2 child.1.1 (some child.1.2.1) (some child.1.2.2)]
      (entry ++ r.1, .installed label value attrs own child.2 r.2)
end

/-- The `(urls, label, namespace)` value of the `urls` property. -/
def urls (s : GSettings) (attrs : CfgAttrs) (own : List URLEntry)
    (children : AppForest) : List URLEntry × Str × Str :=
  (urlsProp s attrs own children).1

/-- The route list produced by `get_auto_loaded_urls`. -/
def get_auto_loaded_urls (s : GSettings) (children : AppForest) : List URLEntry :=
  (auto_loaded_urls_call s children).1

/-- The declared children of a configuration as a list, in declaration
order: label, endpoint value, and the readied `<label>_app` attribute
(`none` for an uninstalled app; otherwise the child's attributes, own
route entries and declared children). -/
def childrenOf :
    AppForest → List (Str × EndpointVal × Option (CfgAttrs × List URLEntry × AppForest))
  | .nil => []
  | .notInstalled l v rest => (l, v, none) :: childrenOf rest
  | .installed l v a own sub rest => (l, v, some (a, own, sub)) :: childrenOf rest

/-- Specification-side test for claim C9: a declared child contributes an
entry exactly when its app is installed and its (processed) route list is
non-empty. -/
def childContributes (s : GSettings) :
    Str × EndpointVal × Option (CfgAttrs × List URLEntry × AppForest) → Bool
  | (_, _, none) => false
  | (_, _, some (a, own, sub)) => !(urls s a own sub).1.isEmpty

/-- Specification-side mounted entry for one contributing child (the value
appended by the loop body of `get_auto_loaded_urls`; the `none` case is
never reached for a contributing child). -/
def childMount (s : GSettings) :
    Str × EndpointVal × Option (CfgAttrs × List URLEntry × AppForest) → URLEntry
  | (_, _, none) => .resolver [] false [] none none
  | (_, v, some (a, own, sub)) =>
      let er := v.parse
      let triple := urls s a own sub
      if a.include_urls_in_parent then
        if s.NAMESPACE_AUTO_INCLUDED_URLS then
          .resolver er.1 er.2 triple.1 (some a.ns) (some a.ns)
        else
          .resolver er.1 er.2 triple.1 none none
      else
        .resolver er.1 er.2 triple.1 (some triple.2.1) (some triple.2.2)

/-! ### Model of `AppConfigMixin.__init__` -/

/-- The attribute names reserved by `django.apps.AppConfig`, as listed in
`AppConfigMixin.__init__`. -/
def app_config_attrs : List Str :=
  [("name".toList), ("module".toList), ("apps".toList), ("label".toList),
   ("verbose_name".toList), ("path".toList), ("models_module".toList),
   ("models".toList)]

/-- The exception raised for clashing constructor kwargs. -/
inductive ConfigError where
  | improperlyConfigured (msg : Str)
deriving DecidableEq, Repr

/-- The configuration object produced by a successful
`AppConfigMixin.__init__`: the fields Django's `AppConfig.__init__` sets
that the mixin reads (`name`, `label` — computed as
`app_name.rpartition(".")[2]`), the resolved `namespace` attribute (`ns`),
and the extra kwargs set as attributes by the final loop. -/
structure MixinConfigObj where
  name : Str
  app_module : Nat
  label : Str
  ns : Str
  extra : List (Str × Nat)
deriving DecidableEq, Repr

/-- Model of `AppConfigMixin.__init__(app_name, app_module, namespace=None,
**kwargs)`.  Kwarg values are opaque (`Nat`); `class_namespace` is the
class-level `namespace` attribute in force when the constructor runs
(`None` on `AppConfigMixin` itself).  The clash check happens before
`super().__init__` and before any kwarg is set, so a clash produces the
`ImproperlyConfigured` error and no object.  The source joins the clashing
names from a Python set (arbitrary order); the model joins them in kwargs
order. -/
def AppConfigMixin_init (app_name : Str) (app_module : Nat)
    (namespace_arg : Option Str) (kwargs : List (Str × Nat))
    (class_namespace : Option Str) : Except ConfigError MixinConfigObj :=
  let clashing_kwargs := kwargs.filter fun kv => app_config_attrs.contains kv.1
  if !clashing_kwargs.isEmpty then
    .error (.improperlyConfigured (
      ("Passed in kwargs can\x27t be named the same as properties of AppConfig; clashing: ".toList)
        ++ strJoin (", ".toList) (clashing_kwargs.map Prod.fst) ++ (".".toList)))
  else
    let label := (splitOnChar '.' app_name).getLastD []
    let ns0 : Option Str :=
      match namespace_arg with
      | some n => some n
      | none => class_namespace
    let ns : Str :=
      match ns0 with
      | some n => n
      | none => label
    .ok { name := app_name, app_module := app_module, label := label, ns := ns,
          extra := kwargs }

/-! ### Specification-side definitions for claim C8 -/

/-- Modelled from the spec wording of claim C8: "strips an optional
namespace prefix (the text before a colon)" — everything up to and
including the first colon is removed, the rest is the bare name. -/
def stripNamespaceSpec (u : Str) : Str :=
  if strContainsChar u ':' then (u.dropWhile fun ch => !(ch == ':')).tail else u

/-- Lookup in the permission map with fallback to the default permission
set (the `self.permissions_map.get(view_name, self.default_permissions)`
step in isolation). -/
def lookupPermsOrDefault (cfg : CfgAttrs) (view_name : Str) : Option PermSpec :=
  match cfg.permissions_map.lookup view_name with
  | some p => some p
  | none => cfg.default_permissions

/-! ## Concrete objects used by witnesses -/

/-- An authenticated, active staff user without any dotted permissions. -/
def staffUser : User where
  attrs := fun a =>
    a == ("is_staff".toList) || a == ("is_active".toList) ||
      a == ("is_authenticated".toList)
  has_perm := fun _ => false

/-- An unauthenticated (anonymous) user: `is_anonymous` is its only true
attribute, it is neither active nor authenticated and holds no permission. -/
def anonUser : User where
  attrs := fun a => a == ("is_anonymous".toList)
  has_perm := fun _ => false

/-- An authenticated user that is neither active nor staff and holds no
dotted permission. -/
def authUser : User where
  attrs := fun a => a == ("is_authenticated".toList)
  has_perm := fun _ => false

/-! ## Claim theorems -/

/-- Claim C7: `check_permissions` returns true on an empty or absent
specification (`None`, the empty list and the empty tuple are all falsy);
on a flat list it returns that list's AND-evaluation
(`_check_one_permission_list`); and on a (non-empty) tuple of flat lists it
returns true iff at least one member list evaluates to true. -/
theorem c7_check_permissions_shape (u : User) :
    check_permissions u .nospec = true ∧
    check_permissions u (.flat []) = true ∧
    check_permissions u (.alt []) = true ∧
    (∀ l : List Str, check_permissions u (.flat l) = check_one_permission_list u l) ∧
    (∀ ls : List (List Str), ls ≠ [] →
      check_permissions u (.alt ls) = ls.any (check_one_permission_list u)) := by
  refine ⟨rfl, rfl, rfl, ?_, ?_⟩
  · intro l
    cases l with
    | nil =>
        simp [check_permissions, check_one_permission_list, PermSpec.falsy,
          User.has_perms]
    | cons x xs =>
        simp [check_permissions, PermSpec.falsy]
  · intro ls h
    cases ls with
    | nil => exact absurd rfl h
    | cons x xs => simp [check_permissions, PermSpec.falsy]

/-- Witness for C7 at a concrete input: a two-list tuple where only the
second list is satisfiable evaluates by OR, hence to true. -/
theorem c7_check_permissions_shape_witness :
    ([[("is_anonymous".toList)], [("is_staff".toList)]] : List (List Str)) ≠ [] ∧
    check_permissions staffUser (.alt [[("is_anonymous".toList)], [("is_staff".toList)]]) =
      ([[("is_anonymous".toList)], [("is_staff".toList)]].any
        (check_one_permission_list staffUser)) ∧
    check_permissions staffUser (.alt [[("is_anonymous".toList)], [("is_staff".toList)]]) = true :=
  ⟨by decide,
   (c7_check_permissions_shape staffUser).2.2.2.2 _ (by decide),
   by decide⟩

/-- Claim C6: on a flat permission list that has at least one bare
(non-dotted) identifier and mentions neither `is_anonymous` nor
`is_active`, the evaluator behaves exactly as if `is_active` had been
appended to the list; and the list `["is_anonymous"]` lets an
unauthenticated anonymous user pass (no implicit `is_active` is added). -/
theorem c6_implicit_is_active :
    (∀ (u : User) (perms : List Str),
      (∃ p ∈ perms, strContainsChar p '.' = false) →
      ("is_anonymous".toList) ∉ perms →
      ("is_active".toList) ∉ perms →
      check_permissions u (.flat perms) =
        check_permissions u (.flat (perms ++ [("is_active".toList)]))) ∧
    check_permissions anonUser (.flat [("is_anonymous".toList)]) = true := by
  constructor
  · intro u perms hbare hanon hactive
    obtain ⟨p, hp, hpdot⟩ := hbare
    have hne : perms ≠ [] := by
      intro h
      subst h
      exact absurd hp (List.not_mem_nil p)
    have hneR : perms ++ [("is_active".toList)] ≠ [] := by simp
    have hpc : p ∈ perms.filter fun q => !strContainsChar q '.' :=
      List.mem_filter.mpr ⟨hp, by simp [hpdot]⟩
    have hcne : (perms.filter fun q => !strContainsChar q '.') ≠ [] := by
      intro h
      rw [h] at hpc
      exact absurd hpc (List.not_mem_nil p)
    have hanonf : ("is_anonymous".toList) ∉ perms.filter fun q => !strContainsChar q '.' :=
      fun h => hanon (List.mem_filter.mp h).1
    have hactf : ("is_active".toList) ∉ perms.filter fun q => !strContainsChar q '.' :=
      fun h => hactive (List.mem_filter.mp h).1
    have hfilterBare :
        (perms ++ [("is_active".toList)]).filter (fun q => !strContainsChar q '.') =
          (perms.filter fun q => !strContainsChar q '.') ++ [("is_active".toList)] := by
      rw [List.filter_append]
      congr 1
    have hfilterDot :
        (perms ++ [("is_active".toList)]).filter (fun q => strContainsChar q '.') =
          perms.filter fun q => strContainsChar q '.' := by
      rw [List.filter_append]
      have : List.filter (fun q => strContainsChar q '.') [("is_active".toList)] = [] := by
        decide
      rw [this, List.append_nil]
    simp only [check_permissions, PermSpec.falsy, List.isEmpty_eq_false.mpr hne,
      List.isEmpty_eq_false.mpr hneR, Bool.false_eq_true, if_false,
      check_one_permission_list, hfilterBare, hfilterDot]
    rw [List.isEmpty_eq_false.mpr hcne]
    have h1 : ((perms.filter fun q => !strContainsChar q '.').contains
        ("is_anonymous".toList)) = false := by
      simp only [List.elem_eq_mem]
      exact decide_eq_false hanonf
    have h2 : ((perms.filter fun q => !strContainsChar q '.').contains
        ("is_active".toList)) = false := by
      simp only [List.elem_eq_mem]
      exact decide_eq_false hactf
    have h3 : (((perms.filter fun q => !strContainsChar q '.') ++
        [("is_active".toList)]).contains ("is_active".toList)) = true := by
      simp only [List.elem_eq_mem]
      exact decide_eq_true (List.mem_append_right _ (List.mem_singleton_self _))
    rw [h1, h2, h3]
    simp
  · decide

/-- Witness for C6 at a concrete input: for the bare list `["is_staff"]`
(no `is_anonymous`/`is_active` inside) the evaluation coincides with the
evaluation of the list with `is_active` appended, and an inactive
authenticated user fails it. -/
theorem c6_implicit_is_active_witness :
    (∃ p ∈ [("is_staff".toList)], strContainsChar p '.' = false) ∧
    check_permissions authUser (.flat [("is_staff".toList)]) =
      check_permissions authUser
        (.flat ([("is_staff".toList)] ++ [("is_active".toList)])) ∧
    check_permissions authUser (.flat [("is_staff".toList)]) = false :=
  ⟨by decide,
   c6_implicit_is_active.1 authUser _ (by decide) (by decide) (by decide),
   by decide⟩

/-- Claim C5: when the permission evaluation fails, the view wrapped by
`permissions_required` raises the REST-framework `PermissionDenied` if the
`api_exception` flag is set and `rest_framework` imports, the generic
Django `PermissionDenied` otherwise — but only for an authenticated user;
for an unauthenticated user nothing is raised and `user_passes_test`
redirects to login with the configured login URL. -/
theorem c5_denied_or_redirect {α : Type} (view : User → α) (rest_available : Bool)
    (permissions : PermSpec) (login_url : Option Str) (api_exception : Bool)
    (u : User) (hfail : check_permissions u permissions = false) :
    (u.is_authenticated = true →
      permissions_required rest_available permissions login_url api_exception view u =
        .error (if api_exception && rest_available then .apiPermissionDenied
                else .permissionDenied)) ∧
    (u.is_authenticated = false →
      permissions_required rest_available permissions login_url api_exception view u =
        .ok (.redirectToLogin login_url)) := by
  constructor <;> intro hauth
  · cases h : api_exception && rest_available <;>
      simp [permissions_required, user_passes_test, check_permissions_test,
        hfail, hauth, h]
  · simp [permissions_required, user_passes_test, check_permissions_test,
      hfail, hauth]

/-- Witness for C5 at concrete inputs: an authenticated inactive user
failing `["is_staff"]` receives the API permission-denied error when the
flag is set and REST framework is available; the anonymous user is
redirected to the configured login URL instead. -/
theorem c5_denied_or_redirect_witness :
    check_permissions authUser (.flat [("is_staff".toList)]) = false ∧
    ((authUser.is_authenticated = true →
      permissions_required true (.flat [("is_staff".toList)])
          (some ("/login/".toList)) true (fun _ => (0 : Nat)) authUser =
        .error (if true && true then .apiPermissionDenied else .permissionDenied)) ∧
     (authUser.is_authenticated = false →
      permissions_required true (.flat [("is_staff".toList)])
          (some ("/login/".toList)) true (fun _ => (0 : Nat)) authUser =
        .ok (.redirectToLogin (some ("/login/".toList))))) :=
  ⟨by decide,
   c5_denied_or_redirect (fun _ => (0 : Nat)) true (.flat [("is_staff".toList)])
     (some ("/login/".toList)) true authUser (by decide)⟩

/-- Claim C10: a constructor kwarg named like one of the reserved
`AppConfig` attributes makes `AppConfigMixin.__init__` fail with
`ImproperlyConfigured` — the check runs before any kwarg is set, so the
failing constructor sets none of them (no object is produced); without a
clash every kwarg ends up set as an attribute of the new configuration. -/
theorem c10_init_kwargs (app_name : Str) (app_module : Nat)
    (namespace_arg : Option Str) (kwargs : List (Str × Nat))
    (class_namespace : Option Str) :
    ((∃ kv ∈ kwargs, kv.1 ∈ app_config_attrs) →
      ∃ msg, AppConfigMixin_init app_name app_module namespace_arg kwargs
          class_namespace = .error (.improperlyConfigured msg)) ∧
    ((∀ kv ∈ kwargs, kv.1 ∉ app_config_attrs) →
      ∃ obj, AppConfigMixin_init app_name app_module namespace_arg kwargs
          class_namespace = .ok obj ∧ obj.extra = kwargs) := by
  constructor
  · rintro ⟨kv, hkv, hmem⟩
    have hf : kv ∈ kwargs.filter fun kv => app_config_attrs.contains kv.1 := by
      refine List.mem_filter.mpr ⟨hkv, ?_⟩
      simp only [List.elem_eq_mem]
      exact decide_eq_true hmem
    have hne : (kwargs.filter fun kv => app_config_attrs.contains kv.1) ≠ [] := by
      intro h
      rw [h] at hf
      exact absurd hf (List.not_mem_nil kv)
    refine ⟨("Passed in kwargs can\x27t be named the same as properties of AppConfig; clashing: ".toList)
        ++ strJoin (", ".toList)
            ((kwargs.filter fun kv => app_config_attrs.contains kv.1).map Prod.fst)
        ++ (".".toList), ?_⟩
    simp only [AppConfigMixin_init, List.isEmpty_eq_false.mpr hne, Bool.not_false,
      if_true]
  · intro h
    have hnil : (kwargs.filter fun kv => app_config_attrs.contains kv.1) = [] := by
      refine List.filter_eq_nil_iff.mpr ?_
      intro kv hkv
      simp only [List.elem_eq_mem]
      simpa using h kv hkv
    refine ⟨{ name := app_name, app_module := app_module,
              label := (splitOnChar '.' app_name).getLastD [],
              ns := match (match namespace_arg with
                           | some n => some n
                           | none => class_namespace) with
                    | some n => n
                    | none => (splitOnChar '.' app_name).getLastD [],
              extra := kwargs }, ?_, rfl⟩
    simp only [AppConfigMixin_init, hnil, List.isEmpty_nil, Bool.not_true,
      Bool.false_eq_true, if_false]

/-- Witness for C10 at concrete inputs: a kwarg named `label` clashes and
yields `ImproperlyConfigured`; a kwarg named `extra_opt` does not clash and
is stored as an attribute. -/
theorem c10_init_kwargs_witness :
    (∃ kv ∈ [(("label".toList), (5 : Nat))], kv.1 ∈ app_config_attrs) ∧
    (∃ msg, AppConfigMixin_init ("myproject.shop".toList) 0 none
        [(("label".toList), (5 : Nat))] none = .error (.improperlyConfigured msg)) ∧
    (∃ obj, AppConfigMixin_init ("myproject.shop".toList) 0 none
        [(("extra_opt".toList), (7 : Nat))] none = .ok obj ∧
        obj.extra = [(("extra_opt".toList), (7 : Nat))]) :=
  ⟨by decide,
   (c10_init_kwargs ("myproject.shop".toList) 0 none
     [(("label".toList), (5 : Nat))] none).1 (by decide),
   (c10_init_kwargs ("myproject.shop".toList) 0 none
     [(("extra_opt".toList), (7 : Nat))] none).2 (by decide)⟩

/-! ### Lemmas about `splitOnChar` (for claim C8) -/

theorem splitOnChar_ne_nil (c : Char) (l : Str) : splitOnChar c l ≠ [] := by
  induction l with
  | nil => simp [splitOnChar]
  | cons x xs ih =>
    simp only [splitOnChar]
    cases h : x == c
    · simp only [Bool.false_eq_true, if_false]
      cases hr : splitOnChar c xs with
      | nil => exact absurd hr ih
      | cons hh tt => simp
    · simp

theorem splitOnChar_headD_takeWhile (c : Char) (l : Str) :
    (splitOnChar c l).headD [] = l.takeWhile fun x => !(x == c) := by
  induction l with
  | nil => rfl
  | cons x xs ih =>
    simp only [splitOnChar, List.takeWhile_cons]
    cases h : x == c
    · simp only [h, Bool.false_eq_true, if_false, Bool.not_false, if_true]
      cases hr : splitOnChar c xs with
      | nil => exact absurd hr (splitOnChar_ne_nil c xs)
      | cons hh tt =>
          rw [hr] at ih
          simp only [List.headD_cons] at ih ⊢
          rw [ih]
    · simp [h]

theorem splitOnChar_append_cons (c : Char) (a b : Str)
    (ha : strContainsChar a c = false) :
    splitOnChar c (a ++ c :: b) = a :: splitOnChar c b := by
  induction a with
  | nil => simp [splitOnChar]
  | cons x xs ih =>
    simp only [strContainsChar, List.any_cons, Bool.or_eq_false_iff] at ha
    have hx : (x == c) = false := ha.1
    have ih2 := ih ha.2
    simp only [List.cons_append, splitOnChar, hx, Bool.false_eq_true, if_false,
      List.append_eq, ih2]

/-! ### Claim C8 (corrected) -/

/-- Permission set mapped to the key `sub:name` in the counterexample
configuration. -/
def permsA : PermSpec := .flat [("is_staff".toList)]

/-- Default permission set of the counterexample configuration. -/
def permsB : PermSpec := .flat [("is_superuser".toList)]

/-- A concrete configuration whose permission map binds the colon-bearing
key `sub:name`. -/
def cfgC8 : CfgAttrs where
  label := "shop".toList
  ns := "shop".toList
  login_url := none
  auto_process_urls := true
  include_urls_in_parent := false
  permissions_map := [(("sub:name".toList), permsA)]
  default_permissions := some permsB

/-- Counterexample to claim C8 as stated: for the route name
`ns:sub:name`, stripping the namespace prefix (the text before the first
colon) leaves `sub:name`, which is present in the permission map with
value `permsA`; yet `get_permissions` returns the default `permsB`,
because the source looks up `url.split(":")[1]` — the second
colon-separated segment (`sub`) — not the whole remainder. -/
theorem c8_counterexample :
    stripNamespaceSpec ("ns:sub:name".toList) = ("sub:name".toList) ∧
    cfgC8.permissions_map.lookup ("sub:name".toList) = some permsA ∧
    get_permissions cfgC8 (some ("ns:sub:name".toList)) = some permsB ∧
    (some permsA : Option PermSpec) ≠ some permsB := by
  decide

/-- Claim C8 as amended: `get_permissions` looks up the second
colon-separated segment of the route name — for `a ++ ":" ++ b` with no
colon in `a` this is the prefix of `b` up to the next colon — and a name
without a colon is looked up as-is; a missing key (or a `None` name) falls
back to the default permission set. -/
theorem c8_get_permissions_amended (cfg : CfgAttrs) :
    (∀ u : Str, strContainsChar u ':' = false →
      get_permissions cfg (some u) = lookupPermsOrDefault cfg u) ∧
    (∀ a b : Str, strContainsChar a ':' = false →
      get_permissions cfg (some (a ++ ':' :: b)) =
        lookupPermsOrDefault cfg (b.takeWhile fun x => !(x == ':'))) ∧
    get_permissions cfg none = cfg.default_permissions := by
  refine ⟨?_, ?_, rfl⟩
  · intro u h
    simp [get_permissions, lookupPermsOrDefault, h]
  · intro a b ha
    have hcont : strContainsChar (a ++ ':' :: b) ':' = true := by
      simp [strContainsChar, List.any_append]
    have hsplit := splitOnChar_append_cons ':' a b ha
    have hgd : ((splitOnChar ':' (a ++ ':' :: b)).getD 1 []) =
        (splitOnChar ':' b).headD [] := by
      rw [hsplit]
      cases hr : splitOnChar ':' b with
      | nil => exact absurd hr (splitOnChar_ne_nil _ _)
      | cons hh tt => simp [List.getD]
    simp only [get_permissions, hcont, if_true, hgd, splitOnChar_headD_takeWhile,
      lookupPermsOrDefault]

/-- Witness for the amended C8 at concrete inputs: for `ns:sub:name` the
looked-up key is `sub` (the second segment), which is absent from the map,
so the default is returned; `basket` without a colon is looked up as-is. -/
theorem c8_get_permissions_amended_witness :
    strContainsChar ("ns".toList) ':' = false ∧
    get_permissions cfgC8 (some (("ns".toList) ++ ':' :: ("sub:name".toList))) =
      lookupPermsOrDefault cfgC8 (("sub:name".toList).takeWhile fun x => !(x == ':')) ∧
    get_permissions cfgC8 (some ("basket".toList)) =
      lookupPermsOrDefault cfgC8 ("basket".toList) :=
  ⟨by decide,
   (c8_get_permissions_amended cfgC8).2.1 ("ns".toList) ("sub:name".toList) (by decide),
   (c8_get_permissions_amended cfgC8).1 ("basket".toList) (by decide)⟩

/-! ### Lemmas for the class-loading claims (C1, C3, C4) -/

theorem firstModuleAttr_pair (lm xm : PyModule) (c : Str) :
    firstModuleAttr [some lm, some xm] c = localFirst lm xm c := by
  simp only [firstModuleAttr, hasattrOpt, getattrOpt, localFirst]
  cases h1 : lm.getAttr c <;> cases h2 : xm.getAttr c <;> simp [h1, h2]

/-- Whether one class name resolves (through the local-first scan over the
two modules) to a truthy value, as a decidable test. -/
def resolvesTruthy (lm xm : PyModule) (c : Str) : Bool :=
  match localFirst lm xm c with
  | some v => v.truthy
  | none => false

theorem pluck_classes_ok (lm xm : PyModule) (cs : List Str)
    (hall : ∀ c ∈ cs, resolvesTruthy lm xm c = true) :
    pluck_classes [some lm, some xm] cs = .ok (cs.filterMap (localFirst lm xm)) := by
  induction cs with
  | nil => rfl
  | cons c cs ih =>
    have hc := hall c (List.mem_cons_self c cs)
    have hrest := ih fun d hd => hall d (List.mem_cons_of_mem c hd)
    unfold resolvesTruthy at hc
    cases hv : localFirst lm xm c with
    | none => rw [hv] at hc; exact absurd hc (by simp)
    | some v =>
        rw [hv] at hc
        have hvt : v.truthy = true := by simpa using hc
        simp [pluck_classes, firstModuleAttr_pair, hv, hvt, hrest,
          List.filterMap_cons, Except.bind]
        rfl

theorem get_classes_resolved (env : PyEnv) ( pfx module_label app_name : Str)
    (xm : PyModule) (lm : Option PyModule) (classnames : List Str)
    (hpfx : pfx ≠ [])
    (hdot : strContainsChar module_label '.' = true)
    (hx : env.resolveImport ( pfx ++ (".".toList) ++ module_label) = .found xm)
    (happ : env.app_configs ((splitOnChar '.' module_label).headD []) = some app_name)
    (hnotx : strStartsWith app_name ( pfx ++ (".".toList)) = false)
    (hl : env.resolveImport (local_module_label app_name module_label) =
      (match lm with | some m => .found m | none => .absent)) :
    get_classes env module_label classnames (some pfx) =
      pluck_classes [lm, some xm] classnames := by
  have hpe : pfx.isEmpty = false := List.isEmpty_eq_false.mpr hpfx
  have hx2 : env.resolveImport (pfx ++ '.' :: module_label) = .found xm := by
    simpa using hx
  have happ2 : env.app_configs ((splitOnChar '.' module_label).head?.getD []) =
      some app_name := by
    simpa using happ
  have hnotx2 : strStartsWith app_name (pfx ++ ['.']) = false := by
    simpa using hnotx
  cases lm with
  | none =>
      have hl2 : env.resolveImport (local_module_label app_name module_label) =
          .absent := by
        simpa using hl
      simp [get_classes, hpe, default_class_loader, hdot, tryImport, hx2,
        find_registered_app_name, happ2, hnotx2, hl2, Except.bind, Except.instMonad]
  | some m =>
      have hl2 : env.resolveImport (local_module_label app_name module_label) =
          .found m := by
        simpa using hl
      simp [get_classes, hpe, default_class_loader, hdot, tryImport, hx2,
        find_registered_app_name, happ2, hnotx2, hl2, Except.bind, Except.instMonad]

theorem pluck_classes_error (mods : List (Option PyModule)) (cs : List Str)
    (h : ∃ c ∈ cs, firstModuleAttr mods c = none) :
    ∃ c0, pluck_classes mods cs = .error (.classNotFound (classNotFoundMsg c0 mods)) := by
  induction cs with
  | nil =>
      obtain ⟨c, hc, _⟩ := h
      exact absurd hc (List.not_mem_nil c)
  | cons c cs ih =>
      cases hv : firstModuleAttr mods c with
      | none => exact ⟨c, by simp [pluck_classes, hv]⟩
      | some k =>
          obtain ⟨c1, hc1, hn1⟩ := h
          have hc1m : c1 ∈ cs := by
            rcases List.mem_cons.mp hc1 with rfl | h2
            · rw [hv] at hn1
              exact absurd hn1 (by simp)
            · exact h2
          cases ht : k.truthy with
          | false => exact ⟨c, by simp [pluck_classes, hv, ht]⟩
          | true =>
              obtain ⟨c0, hres⟩ := ih ⟨c1, hc1m, hn1⟩
              refine ⟨c0, ?_⟩
              simp [pluck_classes, hv, ht, hres, Except.bind, Except.instMonad]

theorem pluck_classes_ok_inv (mods : List (Option PyModule)) (cs : List Str)
    (ks : List PyObj) (h : pluck_classes mods cs = .ok ks) :
    ks.length = cs.length ∧
    ∀ i (hi : i < cs.length) (hk : i < ks.length),
      firstModuleAttr mods (cs.get ⟨i, hi⟩) = some (ks.get ⟨i, hk⟩) := by
  induction cs generalizing ks with
  | nil =>
      simp only [pluck_classes, Except.ok.injEq] at h
      subst h
      exact ⟨rfl, fun i hi => absurd hi (Nat.not_lt_zero i)⟩
  | cons c cs ih =>
      cases hv : firstModuleAttr mods c with
      | none => simp [pluck_classes, hv] at h
      | some k =>
          cases ht : k.truthy with
          | false => simp [pluck_classes, hv, ht] at h
          | true =>
              cases hr : pluck_classes mods cs with
              | error e =>
                  simp [pluck_classes, hv, ht, hr, Except.bind, Except.instMonad] at h
              | ok rest =>
                  have hks : k :: rest = ks := by
                    have h2 := h
                    simp [pluck_classes, hv, ht, hr, Except.bind,
                      Except.instMonad] at h2
                    exact h2
                  subst hks
                  obtain ⟨hlen, hidx⟩ := ih rest hr
                  refine ⟨by simp [hlen], ?_⟩
                  intro i hi hk
                  cases i with
                  | zero => simpa using hv
                  | succ j =>
                      have hj : j < cs.length := Nat.lt_of_succ_lt_succ hi
                      have hjk : j < rest.length := Nat.lt_of_succ_lt_succ hk
                      simpa using hidx j hj hjk

/-- Claim C1: with the owning app registered (and not itself under the
library prefix) and with both the library and the local override module
present, `get_classes` resolves each requested class name by consulting
the local module first and the library module second: the result is
exactly the local-first resolution of every name (when every name resolves
to a class).  The last two conjuncts spell out the scan order: a name
defined in the override module yields the override's class, and otherwise
the library module's attribute is used. -/
theorem c1_local_override_wins (env : PyEnv) ( pfx module_label app_name : Str)
    (lm xm : PyModule) (classnames : List Str)
    (hpfx : pfx ≠ [])
    (hdot : strContainsChar module_label '.' = true)
    (hx : env.resolveImport ( pfx ++ (".".toList) ++ module_label) = .found xm)
    (happ : env.app_configs ((splitOnChar '.' module_label).headD []) = some app_name)
    (hnotx : strStartsWith app_name ( pfx ++ (".".toList)) = false)
    (hl : env.resolveImport (local_module_label app_name module_label) = .found lm)
    (hall : ∀ c ∈ classnames, resolvesTruthy lm xm c = true) :
    get_classes env module_label classnames (some pfx) =
      .ok (classnames.filterMap (localFirst lm xm)) ∧
    (∀ c v, lm.getAttr c = some v → localFirst lm xm c = some v) ∧
    (∀ c, lm.getAttr c = none → localFirst lm xm c = xm.getAttr c) := by
  refine ⟨?_, ?_, ?_⟩
  · rw [get_classes_resolved env pfx module_label app_name xm (some lm) classnames
      hpfx hdot hx happ hnotx hl]
    exact pluck_classes_ok lm xm classnames hall
  · intro c v hv
    simp [localFirst, hv]
  · intro c hv
    simp [localFirst, hv]

/-- Claim C3: under the same resolved-module setup, `get_classes` is
all-or-nothing: a successful result has exactly one class per requested
name, in requested order (each entry is the first-module scan of the
corresponding name); and if any requested name is missing from both the
local and the library module, the whole call fails with
`ClassNotFoundError` whose message contains the name of every module that
was searched. -/
theorem c3_all_or_nothing (env : PyEnv) ( pfx module_label app_name : Str)
    (lm xm : PyModule) (classnames : List Str)
    (hpfx : pfx ≠ [])
    (hdot : strContainsChar module_label '.' = true)
    (hx : env.resolveImport ( pfx ++ (".".toList) ++ module_label) = .found xm)
    (happ : env.app_configs ((splitOnChar '.' module_label).headD []) = some app_name)
    (hnotx : strStartsWith app_name ( pfx ++ (".".toList)) = false)
    (hl : env.resolveImport (local_module_label app_name module_label) = .found lm) :
    (∀ ks, get_classes env module_label classnames (some pfx) = .ok ks →
      ks.length = classnames.length ∧
      ∀ i (hi : i < classnames.length) (hk : i < ks.length),
        firstModuleAttr [some lm, some xm] (classnames.get ⟨i, hi⟩) =
          some (ks.get ⟨i, hk⟩)) ∧
    ((∃ c ∈ classnames, lm.getAttr c = none ∧ xm.getAttr c = none) →
      ∃ msg, get_classes env module_label classnames (some pfx) =
          .error (.classNotFound msg) ∧
        (∃ pre post, msg = pre ++ lm.name ++ post) ∧
        (∃ pre post, msg = pre ++ xm.name ++ post)) := by
  have hred := get_classes_resolved env pfx module_label app_name xm (some lm)
    classnames hpfx hdot hx happ hnotx hl
  constructor
  · intro ks hks
    rw [hred] at hks
    exact pluck_classes_ok_inv _ _ _ hks
  · rintro ⟨c, hc, h1, h2⟩
    have hnone : firstModuleAttr [some lm, some xm] c = none := by
      rw [firstModuleAttr_pair]
      simp [localFirst, h1, h2]
    obtain ⟨c0, hres⟩ := pluck_classes_error [some lm, some xm] classnames ⟨c, hc, hnone⟩
    refine ⟨classNotFoundMsg c0 [some lm, some xm], by rw [hred]; exact hres, ?_, ?_⟩
    · refine ⟨("No class \x27".toList) ++ c0 ++ ("\x27 found in ".toList),
        (", ".toList) ++ xm.name, ?_⟩
      simp [classNotFoundMsg, strJoin, List.append_assoc]
    · refine ⟨("No class \x27".toList) ++ c0 ++ ("\x27 found in ".toList) ++
        lm.name ++ (", ".toList), [], ?_⟩
      simp [classNotFoundMsg, strJoin, List.append_assoc]

/-- Claim C4: when the owning app is registered but neither the library
module nor the local module exists (both imports find nothing, as opposed
to raising a deeper import error), `get_classes` fails with the dedicated
`ModuleNotFoundError` — a constructor distinct from the generic
`ImportError` that `_import_module` re-raises for circular-import
failures. -/
theorem c4_module_not_found_distinct (env : PyEnv) ( pfx module_label app_name : Str)
    (classnames : List Str)
    (hpfx : pfx ≠ [])
    (hdot : strContainsChar module_label '.' = true)
    (hx : env.resolveImport ( pfx ++ (".".toList) ++ module_label) = .absent)
    (happ : env.app_configs ((splitOnChar '.' module_label).headD []) = some app_name)
    (hl : strStartsWith app_name ( pfx ++ (".".toList)) = false →
      env.resolveImport (local_module_label app_name module_label) = .absent) :
    get_classes env module_label classnames (some pfx) =
      .error (.moduleNotFound (moduleNotFoundMsg module_label)) ∧
    LoadError.moduleNotFound (moduleNotFoundMsg module_label) ≠ .importError := by
  refine ⟨?_, by simp⟩
  have hpe : pfx.isEmpty = false := List.isEmpty_eq_false.mpr hpfx
  have hx2 : env.resolveImport (pfx ++ '.' :: module_label) = .absent := by
    simpa using hx
  have happ2 : env.app_configs ((splitOnChar '.' module_label).head?.getD []) =
      some app_name := by
    simpa using happ
  cases hst : strStartsWith app_name (pfx ++ ['.']) with
  | true =>
      simp [get_classes, hpe, default_class_loader, hdot, tryImport, hx2,
        find_registered_app_name, happ2, hst, Except.bind, Except.instMonad,
        Except.pure, throw, throwThe, MonadExceptOf.throw]
  | false =>
      have hl2 : env.resolveImport (local_module_label app_name module_label) =
          .absent := by
        refine hl ?_
        simpa using hst
      simp [get_classes, hpe, default_class_loader, hdot, tryImport, hx2,
        find_registered_app_name, happ2, hst, hl2, Except.bind, Except.instMonad,
        Except.pure, throw, throwThe, MonadExceptOf.throw]

/-- The library module `xently.apps.shop.forms` of the witness environment,
defining two classes. -/
def xmShop : PyModule where
  name := "xently.apps.shop.forms".toList
  attrs := [(("ProductForm".toList), ⟨1, true⟩), (("OrderForm".toList), ⟨2, true⟩)]

/-- The host-project override module `myproject.shop.forms` of the witness
environment, overriding `ProductForm` only. -/
def lmShop : PyModule where
  name := "myproject.shop.forms".toList
  attrs := [(("ProductForm".toList), ⟨10, true⟩)]

/-- A witness environment: the app `shop` is installed as
`myproject.shop`, both the library and the override forms module exist. -/
def envShop : PyEnv where
  resolveImport := fun lbl =>
    if lbl = ("xently.apps.shop.forms".toList) then .found xmShop
    else if lbl = ("myproject.shop.forms".toList) then .found lmShop
    else .absent
  app_configs := fun lbl =>
    if lbl = ("shop".toList) then some ("myproject.shop".toList) else none
  loaderPfx := "xently.apps".toList

/-- A witness environment in which no module at all can be imported but the
app `shop` is registered. -/
def envMissing : PyEnv where
  resolveImport := fun _ => .absent
  app_configs := fun lbl =>
    if lbl = ("shop".toList) then some ("myproject.shop".toList) else none
  loaderPfx := "xently.apps".toList

/-- Witness for C1 at concrete inputs: `ProductForm` is taken from the
override module (object 10), `OrderForm` from the library module
(object 2). -/
theorem c1_local_override_wins_witness :
    (∀ c ∈ [("ProductForm".toList), ("OrderForm".toList)],
      resolvesTruthy lmShop xmShop c = true) ∧
    (get_classes envShop ("shop.forms".toList)
        [("ProductForm".toList), ("OrderForm".toList)]
        (some ("xently.apps".toList)) =
      .ok ([("ProductForm".toList), ("OrderForm".toList)].filterMap
        (localFirst lmShop xmShop)) ∧
    (∀ c v, lmShop.getAttr c = some v → localFirst lmShop xmShop c = some v) ∧
    (∀ c, lmShop.getAttr c = none → localFirst lmShop xmShop c = xmShop.getAttr c)) :=
  ⟨by decide,
   c1_local_override_wins envShop ("xently.apps".toList) ("shop.forms".toList)
     ("myproject.shop".toList) lmShop xmShop
     [("ProductForm".toList), ("OrderForm".toList)]
     (by decide) (by decide) (by decide) (by decide) (by decide) (by decide)
     (by decide)⟩

/-- Witness for C3 at concrete inputs: `MissingForm` is absent from both
modules, so the whole lookup fails with a `ClassNotFoundError` whose
message contains both searched module names. -/
theorem c3_all_or_nothing_witness :
    (∃ c ∈ [("MissingForm".toList)],
      lmShop.getAttr c = none ∧ xmShop.getAttr c = none) ∧
    (∃ msg, get_classes envShop ("shop.forms".toList) [("MissingForm".toList)]
        (some ("xently.apps".toList)) = .error (.classNotFound msg) ∧
      (∃ pre post, msg = pre ++ lmShop.name ++ post) ∧
      (∃ pre post, msg = pre ++ xmShop.name ++ post)) :=
  ⟨by decide,
   (c3_all_or_nothing envShop ("xently.apps".toList) ("shop.forms".toList)
      ("myproject.shop".toList) lmShop xmShop [("MissingForm".toList)]
      (by decide) (by decide) (by decide) (by decide) (by decide) (by decide)).2
     ⟨("MissingForm".toList), by decide, by decide⟩⟩

/-- Witness for C4 at concrete inputs: with every import finding nothing,
resolution of `shop.forms` fails with the dedicated `ModuleNotFoundError`,
not with the generic `ImportError`. -/
theorem c4_module_not_found_distinct_witness :
    envMissing.resolveImport (("xently.apps".toList) ++ (".".toList) ++
      ("shop.forms".toList)) = .absent ∧
    (get_classes envMissing ("shop.forms".toList) [("ProductForm".toList)]
        (some ("xently.apps".toList)) =
      .error (.moduleNotFound (moduleNotFoundMsg ("shop.forms".toList))) ∧
    LoadError.moduleNotFound (moduleNotFoundMsg ("shop.forms".toList)) ≠
      .importError) :=
  ⟨by decide,
   c4_module_not_found_distinct envMissing ("xently.apps".toList)
     ("shop.forms".toList) ("myproject.shop".toList) [("ProductForm".toList)]
     (by decide) (by decide) (by decide) (by decide) (by decide)⟩

theorem auto_loaded_urls_call_state (s : GSettings) (f : AppForest) :
    (auto_loaded_urls_call s f).2 = f := by
  induction f with
  | nil => simp [auto_loaded_urls_call]
  | notInstalled l v rest ih => simp [auto_loaded_urls_call, ih]
  | installed l v a own sub rest ihsub ihrest =>
      simp [auto_loaded_urls_call, urlsProp, ihsub, ihrest]

/-- Claim C2: on an already-readied configuration, the `urls` property
writes no configuration state — the configuration after a call is the one
before it — so querying it twice in succession yields structurally
identical `(urls, label, namespace)` triples (in particular identical
route lists), and the state after the second call again equals the state
after the first. -/
theorem c2_urls_idempotent (s : GSettings) (attrs : CfgAttrs)
    (own : List URLEntry) (children : AppForest) :
    (urlsProp s attrs own ((urlsProp s attrs own children).2)).1 =
      (urlsProp s attrs own children).1 ∧
    (urlsProp s attrs own ((urlsProp s attrs own children).2)).2 =
      (urlsProp s attrs own children).2 := by
  have h : (urlsProp s attrs own children).2 = children := by
    simp [urlsProp, auto_loaded_urls_call_state]
  rw [h]
  exact ⟨rfl, h⟩

/-- Claim C9: the route list produced by `get_auto_loaded_urls` consists of
exactly one mounted entry per declared child whose app is installed and
whose route list is non-empty, in declaration order; an uninstalled child
is skipped (the model is total — no error is raised) and an installed
child with an empty route list contributes nothing. -/
theorem c9_auto_load_children (s : GSettings) (f : AppForest) :
    get_auto_loaded_urls s f =
      ((childrenOf f).filter (childContributes s)).map (childMount s) := by
  induction f with
  | nil => simp [get_auto_loaded_urls, auto_loaded_urls_call, childrenOf]
  | notInstalled l v rest ih =>
      have ih2 : (auto_loaded_urls_call s rest).1 =
          ((childrenOf rest).filter (childContributes s)).map (childMount s) := ih
      simp [get_auto_loaded_urls, auto_loaded_urls_call, childrenOf,
        childContributes, ih2]
  | installed l v a own sub rest _ihsub ihrest =>
      have ih2 : (auto_loaded_urls_call s rest).1 =
          ((childrenOf rest).filter (childContributes s)).map (childMount s) := ihrest
      cases hinc : a.include_urls_in_parent <;>
        cases he : (urlsProp s a own sub).1.1.isEmpty <;>
          cases hns : s.NAMESPACE_AUTO_INCLUDED_URLS <;>
            simp [get_auto_loaded_urls, auto_loaded_urls_call, childrenOf,
              childContributes, childMount, urls, hinc, he, hns, ih2]

/-- A view callback used by the demonstration forest for claim C9. -/
def basketCb : Callback := { view := 7, wrappers := [] }

/-- Attributes of the demonstration child app `shop`, which contributes one
URL pattern through its `get_urls` override. -/
def shopAttrs : CfgAttrs where
  label := "shop".toList
  ns := "shop".toList
  login_url := none
  auto_process_urls := true
  include_urls_in_parent := false
  permissions_map := []
  default_permissions := none

/-- Attributes of the demonstration child app `reviews` (installed, but
with an empty route list). -/
def reviewsAttrs : CfgAttrs where
  label := "reviews".toList
  ns := "reviews".toList
  login_url := none
  auto_process_urls := true
  include_urls_in_parent := false
  permissions_map := []
  default_permissions := none

/-- The route entries returned by `shop`'s overridden `get_urls` beyond the
auto-loaded ones. -/
def shopOwnUrls : List URLEntry := [.pattern (some ("basket".toList)) basketCb]

/-- A readied forest declaring three children: an installed child owning a
route, an uninstalled child, and an installed child with an empty route
list. -/
def demoForest : AppForest :=
  .installed ("shop".toList) (.str ("shop/".toList)) shopAttrs shopOwnUrls .nil
    (.notInstalled ("payments".toList) (.str ("payments/".toList))
      (.installed ("reviews".toList) (.str ("reviews/".toList)) reviewsAttrs []
        .nil .nil))

/-- Witness for C9 at a concrete readied forest: the installed child with a
non-empty route list contributes exactly its mounted `(urls, label,
namespace)` entry — endpoint `shop/`, non-regex, the child's processed
routes, its label and namespace — while the uninstalled child and the
installed child with an empty route list contribute nothing. -/
theorem c9_auto_load_children_witness :
    get_auto_loaded_urls { NAMESPACE_AUTO_INCLUDED_URLS := false } demoForest =
      [.resolver ("shop/".toList) false
        [.pattern (some ("basket".toList)) basketCb]
        (some ("shop".toList)) (some ("shop".toList))] := by
  have h := c9_auto_load_children { NAMESPACE_AUTO_INCLUDED_URLS := false } demoForest
  rw [h]
  have hdec : get_url_decorator shopAttrs (some ("basket".toList)) = none := by
    decide
  simp [demoForest, childrenOf, childContributes, childMount, urls, urlsProp,
    auto_loaded_urls_call, post_processed_urls, hdec, shopAttrs, reviewsAttrs,
    shopOwnUrls, EndpointVal.parse, basketCb]
  rw [show get_url_decorator
      { label := ['s', 'h', 'o', 'p'], ns := ['s', 'h', 'o', 'p'],
        login_url := none, auto_process_urls := true,
        include_urls_in_parent := false, permissions_map := [],
        default_permissions := none }
      (some ['b', 'a', 's', 'k', 'e', 't']) = none from by decide]
